/-
Verification of the vodokanal task-queue / worker-pipeline against its
natural-language specification.

The Python sources are shallowly embedded:
  * `bot/services/database.py` (DatabaseService)  → the `DB` model below;
  * `bot/worker.py` (BackgroundWorker)            → `processTask` and friends,
    an effect-trace semantics over an explicit environment of external
    outcomes (network calls, parse results);
  * `bot/services/llm.py` (YandexGPTService)      → `analyzeText`;
  * Python strings are `List Char`; the handful of `str` methods the code
    uses (`strip`, `split("\n", 1)`, `rsplit("\n", 1)`, `startswith`,
    `endswith`, `lower`, `rfind`, slicing) are modelled explicitly.

`json.loads` (CPython stdlib) is not re-implemented; its outcome on the one
genuinely unknown string (the raw LLM alternative) is an explicit input of
the environment, and the fallback strings built by `llm.py` itself carry
their known parse alongside.
-/
import Mathlib

set_option maxHeartbeats 1000000

abbrev Str := List Char

/-! ## Python string primitives -/

/-- The whitespace set stripped by Python's `str.strip()`. -/
def pyIsSpace (c : Char) : Bool :=
  c = ' ' || c = '\t' || c = '\n' || c = '\r' || c = Char.ofNat 11 || c = Char.ofNat 12

/-- Python `s.lstrip()`. -/
def pyLStrip (s : Str) : Str := s.dropWhile pyIsSpace

/-- Python `s.rstrip()`. -/
def pyRStrip (s : Str) : Str := (s.reverse.dropWhile pyIsSpace).reverse

/-- Python `s.strip()`. -/
def pyStrip (s : Str) : Str := pyRStrip (pyLStrip s)

/-- Everything after the first occurrence of `c`, if `c` occurs.
`(afterChar c s).getD s` is Python's `s.split(c, 1)[-1]`. -/
def afterChar (c : Char) : Str → Option Str
  | [] => none
  | x :: xs => if x = c then some xs else afterChar c xs

/-- Python `s.split("\n", 1)[-1]`. -/
def splitOnceTail (s : Str) : Str := (afterChar '\n' s).getD s

/-- Python `s.rsplit("\n", 1)[0]`. -/
def rsplitOnceHead (s : Str) : Str :=
  ((afterChar '\n' s.reverse).getD s.reverse).reverse

/-- The backquote character (we keep it out of the source text proper). -/
def bq : Char := Char.ofNat 96

/-- The code-fence marker `\x60\x60\x60`. -/
def fence : Str := [bq, bq, bq]

/--
Model of `worker.py` lines 127–133: markdown-fence cleanup applied to the LLM
response before `json.loads`:

    cleaned_str = json_response_str.strip()
    if cleaned_str.startswith("```"): cleaned_str = cleaned_str.split("\n", 1)[-1]
    if cleaned_str.endswith("```"):   cleaned_str = cleaned_str.rsplit("\n", 1)[0]
-/
def stripFences (s : Str) : Str :=
  let c1 := pyStrip s
  let c2 := if fence.isPrefixOf c1 then splitOnceTail c1 else c1
  if fence.isSuffixOf c2 then rsplitOnceHead c2 else c2

/-- Python `str.lower()`, restricted to the alphabets the transcripts use:
ASCII letters and the Cyrillic block (А..Я → а..я, Ё → ё). Other characters
are fixed points, as in CPython for non-cased characters. -/
def pyLower (c : Char) : Char :=
  if 'A' ≤ c ∧ c ≤ 'Z' then Char.ofNat (c.toNat + 32)
  else if 'А' ≤ c ∧ c ≤ 'Я' then Char.ofNat (c.toNat + 32)
  else if c = 'Ё' then 'ё'
  else c

/-- All start positions at which `needle` occurs inside `hay`. -/
def subOccs (needle hay : Str) : List Nat :=
  (List.range (hay.length + 1)).filter (fun i => needle.isPrefixOf (hay.drop i))

/-- Python `hay.rfind(needle)`: index of the last occurrence, if any. -/
def rfindIdx (needle hay : Str) : Option Nat := (subOccs needle hay).getLast?

/-- Python `needle in hay` (substring containment). -/
def containsSub (needle hay : Str) : Bool := (rfindIdx needle hay).isSome

/-- Decimal digits of a natural number (Python `str(n)` for `n : Nat`). -/
def natChars (n : Nat) : Str := Nat.toDigits 10 n

/-! ## JSON values

The shape of the Python objects `json.loads` can produce. Objects are
association lists; `json.loads` collapses duplicate keys, so first-match
lookup is faithful for parser output. -/

inductive Json where
  | null
  | bool (b : Bool)
  | num (n : Int)
  | str (s : Str)
  | arr (elems : List Json)
  | obj (fields : List (Str × Json))

/-- Dict lookup (`d[k]` / the hit case of `d.get(k)`). -/
def jLookup : List (Str × Json) → Str → Option Json
  | [], _ => none
  | (k', v) :: rest, k => if k' = k then some v else jLookup rest k

/-- Python `d.get(k, default)`. -/
def jGetD (fields : List (Str × Json)) (k : Str) (d : Json) : Json :=
  (jLookup fields k).getD d

/-- Python truthiness of a JSON-shaped value. -/
def jTruthy : Json → Bool
  | .null => false
  | .bool b => b
  | .num n => n != 0
  | .str s => !s.isEmpty
  | .arr xs => !xs.isEmpty
  | .obj fs => !fs.isEmpty

/-! ## The task store (`bot/services/database.py`) -/

inductive TStatus where
  | queued | processing | completed | error
deriving DecidableEq, Repr

/-- One row of the `tasks` table. Result columns hold whatever Python value
was bound into the UPDATE, so they are `Json`-shaped; the boolean columns
were added by migrations with `DEFAULT 0`. -/
structure TaskRow where
  id : Nat
  userId : Int
  fileType : Str
  sourcePath : Str
  fileName : Str
  status : TStatus
  resultSummary : Json
  resultSentiment : Json
  resultText : Json
  address : Json
  dialogType : Json
  refusalMarker : Json
  isRelevantHard : Json
  categoryRefusalWorks : Json
  categoryNoBrigade : Json
  categoryLongDuration : Json
  categoryRedirect : Json
  cleanedStreet : Json
  cleanedHouse : Json
  errorMessage : Json
  createdAt : Nat

/-- The `tasks` table plus the AUTOINCREMENT counter. -/
structure DB where
  rows : List TaskRow
  nextId : Nat

/-- A freshly inserted row (`add_task` INSERT: status defaults to
`'queued'`, result columns NULL, migration-added booleans 0). -/
def newRow (id : Nat) (userId : Int) (fileType sourcePath fileName : Str)
    (now : Nat) : TaskRow :=
  { id := id
    userId := userId
    fileType := fileType
    sourcePath := sourcePath
    fileName := fileName
    status := .queued
    resultSummary := .null
    resultSentiment := .null
    resultText := .null
    address := .null
    dialogType := .null
    refusalMarker := .null
    isRelevantHard := .num 0
    categoryRefusalWorks := .num 0
    categoryNoBrigade := .num 0
    categoryLongDuration := .num 0
    categoryRedirect := .num 0
    cleanedStreet := .null
    cleanedHouse := .null
    errorMessage := .null
    createdAt := now }

/-- Model of `DatabaseService.add_task`: INSERT and return `lastrowid`. -/
def addTask (db : DB) (userId : Int) (fileType sourcePath fileName : Str)
    (now : Nat) : Nat × DB :=
  (db.nextId,
   { rows := db.rows ++ [newRow db.nextId userId fileType sourcePath fileName now]
     nextId := db.nextId + 1 })

/-- Row with the smaller id, scanning a list (`ORDER BY id ASC LIMIT 1`). -/
def minIdRow : TaskRow → List TaskRow → TaskRow
  | t, [] => t
  | t, u :: us => if u.id < t.id then minIdRow u us else minIdRow t us

/-- Head of a candidate list as the minimum-id row (the `LIMIT 1` of an
`ORDER BY id ASC`). -/
def headMin : List TaskRow → Option TaskRow
  | [] => none
  | t :: ts => some (minIdRow t ts)

/-- The query `SELECT ... FROM tasks WHERE status = 'queued' ORDER BY id ASC LIMIT 1`. -/
def oldestQueued (db : DB) : Option TaskRow :=
  headMin (db.rows.filter (fun t => t.status = .queued))

/-- Action of `UPDATE tasks SET status = 'processing' WHERE id = ?` on one row. -/
def setProcessing (i : Nat) (t : TaskRow) : TaskRow :=
  if t.id = i then { t with status := .processing } else t

/-- Model of `DatabaseService.get_pending_task`, executed atomically (the whole
SELECT + UPDATE without interleaving): returns the claimed row and the new
table state. -/
def getPendingTask (db : DB) : Option TaskRow × DB :=
  match oldestQueued db with
  | none => (none, db)
  | some t => (some t, { db with rows := db.rows.map (setProcessing t.id) })

/-- The keyword arguments `DatabaseService.complete_task` accepts
(its parameter list, `database.py` lines 120–130). -/
def completeTaskParamNames : List String :=
  ["task_id", "summary", "sentiment", "full_text", "address", "dialog_type",
   "refusal_marker", "is_relevant_hard", "category_refusal_works",
   "category_no_brigade", "category_long_duration", "category_redirect",
   "cleaned_street", "cleaned_house"]

/-- The keyword arguments the worker passes at `worker.py` lines 193–211. -/
def workerCompleteKwargNames : List String :=
  ["task_id", "summary", "sentiment", "full_text", "address", "dialog_type",
   "refusal_marker", "is_relevant_hard", "category_refusal_works",
   "category_no_brigade", "category_long_duration", "category_redirect",
   "cleaned_street", "cleaned_house", "resident_phrase", "accident_duration"]

/-- A Python call is accepted only when every keyword argument names a
parameter; otherwise the call itself raises `TypeError`. -/
def workerCompleteCallOk : Bool :=
  workerCompleteKwargNames.all (fun k => completeTaskParamNames.contains k)

/-- The values `complete_task` binds into its UPDATE. -/
structure CompleteArgs where
  summary : Json
  sentiment : Json
  fullText : Json
  address : Json := .null
  dialogType : Json := .null
  refusalMarker : Json := .null
  isRelevantHard : Json := .bool false
  categoryRefusalWorks : Json := .bool false
  categoryNoBrigade : Json := .bool false
  categoryLongDuration : Json := .bool false
  categoryRedirect : Json := .bool false
  cleanedStreet : Json := .null
  cleanedHouse : Json := .null

/-- Effect of the `complete_task` UPDATE on one row. -/
def completeRowUpd (taskId : Nat) (a : CompleteArgs) (t : TaskRow) : TaskRow :=
  if t.id = taskId then
    { t with
      status := .completed
      resultSummary := a.summary
      resultSentiment := a.sentiment
      resultText := a.fullText
      address := a.address
      dialogType := a.dialogType
      refusalMarker := a.refusalMarker
      isRelevantHard := a.isRelevantHard
      categoryRefusalWorks := a.categoryRefusalWorks
      categoryNoBrigade := a.categoryNoBrigade
      categoryLongDuration := a.categoryLongDuration
      categoryRedirect := a.categoryRedirect
      cleanedStreet := a.cleanedStreet
      cleanedHouse := a.cleanedHouse }
  else t

/-- Model of `DatabaseService.complete_task`: unconditional
`UPDATE tasks SET status = 'completed', … WHERE id = ?`. -/
def completeTask (db : DB) (taskId : Nat) (a : CompleteArgs) : DB :=
  { db with rows := db.rows.map (completeRowUpd taskId a) }

/-- Effect of the `fail_task` UPDATE on one row. -/
def failRowUpd (taskId : Nat) (msg : Str) (t : TaskRow) : TaskRow :=
  if t.id = taskId then
    { t with
      status := .error
      errorMessage := .str msg }
  else t

/-- Model of `DatabaseService.fail_task`: unconditional
`UPDATE tasks SET status = 'error', error_message = ? WHERE id = ?`. -/
def failTask (db : DB) (taskId : Nat) (msg : Str) : DB :=
  { db with rows := db.rows.map (failRowUpd taskId msg) }

/-! ### The claim operation as two separate atomic actions.

`get_pending_task` runs its SELECT and its UPDATE as two distinct
statements on the connection (the comment in the source acknowledges
SQLite gives it no row lock).  `claimStep` is one caller advancing one
atomic action at a time; a schedule interleaves two callers. -/

inductive ClaimPC where
  | start
  | selected (t : Option TaskRow)
  | done (r : Option TaskRow)

/-- One atomic action of a `get_pending_task` call:
first the SELECT, then the UPDATE (and the function returns the row the
SELECT produced, not a re-read). -/
def claimStep : ClaimPC × DB → ClaimPC × DB
  | (.start, db) => (.selected (oldestQueued db), db)
  | (.selected none, db) => (.done none, db)
  | (.selected (some t), db) =>
      (.done (some t), { db with rows := db.rows.map (setProcessing t.id) })
  | (.done r, db) => (.done r, db)

/-- Run two callers A and B under a schedule (`true` = A moves). -/
def runSched : List Bool → ClaimPC × ClaimPC × DB → ClaimPC × ClaimPC × DB
  | [], s => s
  | true :: rest, (a, b, db) =>
      let s := claimStep (a, db); runSched rest (s.1, b, s.2)
  | false :: rest, (a, b, db) =>
      let s := claimStep (b, db); runSched rest (a, s.1, s.2)

/-! ## Python value rendering (`str()` / `repr()` as used by the worker) -/

/-- Join a list of strings with a separator (Python `sep.join(parts)`). -/
def joinSep (sep : Str) : List Str → Str
  | [] => []
  | [x] => x
  | x :: xs => x ++ sep ++ joinSep sep xs

/-- The apostrophe character (kept out of the source text proper). -/
def apos : Char := Char.ofNat 39

mutual
/-- Python `repr()` of a JSON-shaped value (quote escaping inside string
reprs is elided; no claim depends on it). -/
def pyRepr : Json → Str
  | .null => "None".data
  | .bool true => "True".data
  | .bool false => "False".data
  | .num n => if n < 0 then '-' :: Nat.toDigits 10 n.natAbs else Nat.toDigits 10 n.natAbs
  | .str s => apos :: s ++ [apos]
  | .arr xs => '[' :: joinSep ", ".data (pyReprList xs) ++ [']']
  | .obj fs => Char.ofNat 123 :: joinSep ", ".data (pyReprFields fs) ++ [Char.ofNat 125]

def pyReprList : List Json → List Str
  | [] => []
  | x :: xs => pyRepr x :: pyReprList xs

def pyReprFields : List (Str × Json) → List Str
  | [] => []
  | (k, v) :: fs => (apos :: k ++ apos :: ':' :: ' ' :: pyRepr v) :: pyReprFields fs
end

/-- Python `str()`: identity on strings, `repr` otherwise. -/
def pyStr : Json → Str
  | .str s => s
  | v => pyRepr v

/-! ## IVR boilerplate stripping (`worker.py` lines 83–100) -/

/-- One iteration of the marker loop: `some cleaned` means the loop body
assigned `text` and broke; `none` means this marker did not trigger. -/
def ivrStripOne (text marker : Str) : Option Str :=
  let tl := text.map pyLower
  match rfindIdx marker tl with
  | none => none
  | some i =>
      let clean := pyStrip (text.drop (i + marker.length))
      if 5 < clean.length then some clean else none

/-- The IVR-greeting stripper: try the two known markers in order, keep the
first successful cleanup, otherwise the original text. -/
def ivrStrip (text : Str) : Str :=
  match ivrStripOne text "разговоры записываются".data with
  | some c => c
  | none =>
    match ivrStripOne text "целях контроля качества".data with
    | some c => c
    | none => text

/-! ## Parse-and-normalize (`worker.py` lines 105–190)

Exceptions are `Except Str`, the payload being `str(e)`.  Only
`json.JSONDecodeError` is caught by the worker's inner `except`; attribute,
key and type errors raised while digging into the parsed value propagate to
the outer handler and fail the task. -/

/-- Message of the `TypeError` raised by the worker's `complete_task` call
(it passes keyword arguments the method does not accept). -/
def completeTypeErrMsg : Str :=
  "complete_task() got an unexpected keyword argument ".data
    ++ apos :: "resident_phrase".data ++ [apos]

def attrGetErrMsg : Str := "object has no attribute ".data ++ apos :: "get".data ++ [apos]

def keyErrMsg (k : Str) : Str := apos :: k ++ [apos]

def iterTypeErrMsg : Str := "object is not iterable or not subscriptable".data

def lenTypeErrMsg : Str := "object of this type has no len()".data

/-- Python `v.get(k, d)` on an arbitrary value: `AttributeError` unless the
value is a dict. -/
def jGetAttr (v : Json) (k : Str) (d : Json) : Except Str Json :=
  match v with
  | .obj fs => .ok (jGetD fs k d)
  | _ => .error attrGetErrMsg

/-- Python `len(v)`: defined for str/list/dict, `TypeError` otherwise. -/
def jLen : Json → Except Str Nat
  | .str s => .ok s.length
  | .arr xs => .ok xs.length
  | .obj fs => .ok fs.length
  | _ => .error lenTypeErrMsg

/-- The marker list comprehension
`[f"{m['marker_type']} ('{m['operator_phrase']}')" for m in markers]`:
each element must be a dict carrying both keys. -/
def markerStrs : List Json → Except Str (List Str)
  | [] => .ok []
  | .obj mf :: rest =>
      match jLookup mf "marker_type".data with
      | none => .error (keyErrMsg "marker_type".data)
      | some mt =>
        match jLookup mf "operator_phrase".data with
        | none => .error (keyErrMsg "operator_phrase".data)
        | some op =>
          match markerStrs rest with
          | .error e => .error e
          | .ok tail =>
            .ok ((pyStr mt ++ " (".data ++ apos :: pyStr op ++ apos :: ")".data) :: tail)
  | _ :: _ => .error iterTypeErrMsg

/-- The markers block (`worker.py` lines 157–163): a non-empty list is
formatted entry by entry; a falsy value yields the no-markers string; a
truthy non-list raises when iterated/subscripted. -/
def markersField (mv : Json) : Except Str Str :=
  match mv with
  | Json.arr ms =>
      if ms.isEmpty then .ok "Нет маркеров".data
      else
        match markerStrs ms with
        | .error e => .error e
        | .ok parts => .ok (joinSep "; ".data parts)
  | v => if jTruthy v then .error iterTypeErrMsg else .ok "Нет маркеров".data

/-- Normalized values handed to the persist step (after the
`Sanitize types for DB` block, `worker.py` lines 176–189). -/
structure AnalysisOut where
  summary : Str
  sentiment : Str
  address : Str
  dialogType : Str
  markersStr : Str
  finalTranscript : Str
  isRelevantHard : Json
  categoryRefusalWorks : Json
  categoryNoBrigade : Json
  categoryLongDuration : Json
  categoryRedirect : Json
  cleanedStreet : Json
  cleanedHouse : Json
  residentPhrase : Json
  accidentDuration : Json

/-- Python `"\n".join(str(x) for x in v) if isinstance(v, list) else str(v)`. -/
def sanitizeJoin (sep : Str) : Json → Str
  | .arr xs => joinSep sep (xs.map pyStr)
  | v => pyStr v

/-- The field extraction performed on a successfully parsed dict
(`worker.py` lines 137–168 plus the sanitize block). -/
def extractAnalysis (text : Str) (df : List (Str × Json)) : Except Str AnalysisOut :=
  let summary0 := jGetD df "summary".data (.str "Без саммари".data)
  let sentiment0 := jGetD df "sentiment".data (.str "N/A".data)
  let address0 := jGetD df "address".data (.str "Не указан".data)
  let dialogType0 := jGetD df "dialog_type".data (.str "N/A".data)
  let isRel := jGetD df "is_relevant_hard".data (.bool false)
  let residentPhrase := jGetD df "resident_phrase".data (.str [])
  let accidentDuration := jGetD df "accident_duration".data (.str [])
  let stats := jGetD df "stats_categories".data (.obj [])
  match jGetAttr stats "refusal_deadline".data (.bool false) with
  | .error e => .error e
  | .ok cat1 =>
  match jGetAttr stats "no_brigade".data (.bool false) with
  | .error e => .error e
  | .ok cat2 =>
  match jGetAttr stats "long_duration".data (.bool false) with
  | .error e => .error e
  | .ok cat3 =>
  match jGetAttr stats "redirect_other_org".data (.bool false) with
  | .error e => .error e
  | .ok cat4 =>
  match jGetAttr (jGetD df "location".data (.obj [])) "street".data (.str []) with
  | .error e => .error e
  | .ok street =>
  match jGetAttr (jGetD df "location".data (.obj [])) "house".data (.str []) with
  | .error e => .error e
  | .ok house =>
  match markersField (jGetD df "markers".data (.arr [])) with
  | .error e => .error e
  | .ok markersStr =>
  match jLen (jGetD df "cleaned_dialogue".data (.str text)) with
  | .error e => .error e
  | .ok ftLen =>
  let ftJ := if ftLen < 10 then Json.str text
             else jGetD df "cleaned_dialogue".data (.str text)
  .ok
    { summary := pyStr summary0
      sentiment := pyStr sentiment0
      address := sanitizeJoin ", ".data address0
      dialogType := pyStr dialogType0
      markersStr := markersStr
      finalTranscript := sanitizeJoin "\n".data ftJ
      isRelevantHard := isRel
      categoryRefusalWorks := cat1
      categoryNoBrigade := cat2
      categoryLongDuration := cat3
      categoryRedirect := cat4
      cleanedStreet := street
      cleanedHouse := house
      residentPhrase := residentPhrase
      accidentDuration := accidentDuration }

/-- The degraded record built when `json.loads` raises
(`worker.py` lines 170–174 on top of the defaults at lines 105–122,
then sanitized). -/
def degradedOut (text respStr : Str) : AnalysisOut :=
  { summary := "Ошибка формата ответа нейросети".data
    sentiment := "N/A".data
    address := "Не определен".data
    dialogType := "Не определен".data
    markersStr := respStr.take 100
    finalTranscript := text
    isRelevantHard := .bool false
    categoryRefusalWorks := .bool false
    categoryNoBrigade := .bool false
    categoryLongDuration := .bool false
    categoryRedirect := .bool false
    cleanedStreet := .null
    cleanedHouse := .null
    residentPhrase := .null
    accidentDuration := .null }

/-- Step 7 as a whole: `parsed` is the outcome of
`json.loads(stripFences respStr)` (`none` = `JSONDecodeError`). A parse
producing a non-dict hits `data.get` and raises past the inner handler. -/
def analysisStage (text respStr : Str) (parsed : Option Json) : Except Str AnalysisOut :=
  match parsed with
  | none => .ok (degradedOut text respStr)
  | some (.obj df) => extractAnalysis text df
  | some _ => .error attrGetErrMsg

/-! ## The analysis client (`bot/services/llm.py`, `analyze_text`)

Every network failure inside the `try` is caught and converted into a
fallback JSON string (the source comments this: the error is returned *as
JSON* so the worker can parse it); only missing credentials raise (the
`_get_headers()` call sits before the `try`).  Each fallback string is
returned together with its known `json.loads` image; the raw model
alternative — the only string whose parse is unknown — carries the
environment-supplied outcome. -/

/-- Fallback body for a non-200 analysis response (`llm.py` lines 144–150). -/
def llmFallbackHttpStr (status : Nat) (errText : Str) : Str :=
  "\x7b\"summary\": \"Ошибка AI: ".data ++ natChars status
    ++ "\", \"sentiment\": \"ERROR\", \"address\": \"Ошибка\", \"dialog_type\": \"Ошибка\", \"cleaned_dialogue\": \"Ошибка API: ".data
    ++ errText ++ "\"\x7d".data

def llmFallbackHttpObj (status : Nat) (errText : Str) : List (Str × Json) :=
  [("summary".data, .str ("Ошибка AI: ".data ++ natChars status)),
   ("sentiment".data, .str "ERROR".data),
   ("address".data, .str "Ошибка".data),
   ("dialog_type".data, .str "Ошибка".data),
   ("cleaned_dialogue".data, .str ("Ошибка API: ".data ++ errText))]

/-- Fallback body when the 200 response has no alternatives (lines 161–164). -/
def llmFallbackEmptyStr (rawRepr : Str) : Str :=
  "\x7b\"summary\": \"Ошибка AI: Пустой ответ\", \"cleaned_dialogue\": \"Raw response: ".data
    ++ rawRepr ++ "\"\x7d".data

def llmFallbackEmptyObj (rawRepr : Str) : List (Str × Json) :=
  [("summary".data, .str "Ошибка AI: Пустой ответ".data),
   ("cleaned_dialogue".data, .str ("Raw response: ".data ++ rawRepr))]

/-- Fallback body for a raised client exception (lines 166–171). -/
def llmFallbackClientStr (e : Str) : Str :=
  "\x7b\"summary\": \"Ошибка клиента: ".data ++ e
    ++ "\", \"cleaned_dialogue\": \"Exception: ".data ++ e ++ "\"\x7d".data

def llmFallbackClientObj (e : Str) : List (Str × Json) :=
  [("summary".data, .str ("Ошибка клиента: ".data ++ e)),
   ("cleaned_dialogue".data, .str ("Exception: ".data ++ e))]

/-- Outcomes of every external interaction of one `process_task` run.
`rawParse` is the `json.loads ∘ stripFences` image of the raw LLM
alternative text (the one string whose parse the model cannot know). -/
structure WEnv where
  bucket : Str
  targetChatSet : Bool
  tgDownloadOk : Bool
  s3UploadOk : Bool
  skSubmitRes : Option Str
  skErrMsg : Str
  skWaitRes : Option Str
  llmFolderSet : Bool
  llmCredsSet : Bool
  llmClientErr : Option Str
  llmStatus : Nat
  llmErrText : Str
  llmAlts : List Str
  llmRawRepr : Str
  rawParse : Option Json
  archiveDownloadOk : Bool
  zipOk : Bool
  archiveEntries : List Str
  archiveUploadFailAt : Option Nat
  archiveNotifyOk : Bool

/-- Model of `YandexGPTService.analyze_text`: total on every network
outcome, raising only for missing credentials. -/
def analyzeText (env : WEnv) : Except Str (Str × Option Json) :=
  if env.llmFolderSet = false then
    .ok ("Невозможно выполнить анализ: YANDEX_FOLDER_ID не настроен.".data, none)
  else if env.llmCredsSet = false then
    .error "No Yandex Cloud credentials provided (API Key or IAM Token)".data
  else
    match env.llmClientErr with
    | some e => .ok (llmFallbackClientStr e, some (.obj (llmFallbackClientObj e)))
    | none =>
      if env.llmStatus ≠ 200 then
        .ok (llmFallbackHttpStr env.llmStatus env.llmErrText,
             some (.obj (llmFallbackHttpObj env.llmStatus env.llmErrText)))
      else
        match env.llmAlts with
        | [] => .ok (llmFallbackEmptyStr env.llmRawRepr,
                     some (.obj (llmFallbackEmptyObj env.llmRawRepr)))
        | a :: _ => .ok (a, env.rawParse)

/-! ## The worker run (`BackgroundWorker.process_task` / `handle_archive`)

An effect-trace semantics: the run of one claimed task yields the ordered
list of store/remote invocations plus the final local scratch filesystem
(a set of file/directory names, starting empty). Chat messages are not
traced. -/

inductive Effect where
  | tgDownload (dest : Str)
  | s3Upload (key : Str)
  | s3Delete (key : Str)
  | skSubmit (url : Str)
  | llmAnalyze (text : Str)
  | dbComplete (taskId : Nat) (summary sentiment fullText : Str)
  | dbFail (taskId : Nat) (msg : Str)
  | dbAdd (userId : Int) (fileType sourcePath fileName : Str)
deriving DecidableEq, Repr

/-- The dict `get_pending_task` returned for the claimed task. -/
structure PTaskIn where
  id : Nat
  userId : Int
  fileType : Str
  sourcePath : Str
  fileName : Str

def tempFilename (t : PTaskIn) : Str :=
  "temp_".data ++ natChars t.id ++ "_".data ++ t.fileName

def extractDirName (i : Nat) : Str := "temp_extract_".data ++ natChars i

def transcriptFilename (i : Nat) : Str :=
  "transcript_".data ++ natChars i ++ ".txt".data

def queueKey (t : PTaskIn) : Str :=
  "queue/".data ++ natChars t.id ++ "/".data ++ t.fileName

def archKey (parentId : Nat) (entry : Str) : Str :=
  "archives/".data ++ natChars parentId ++ "/".data ++ entry

/-- The URL `YandexStorageService.upload_file` returns. -/
def durableUrl (bucket key : Str) : Str :=
  "https://storage.yandexcloud.net/".data ++ bucket ++ "/".data ++ key

/-- Python `source_path.startswith("http")`. -/
def startsHttp (s : Str) : Bool := "http".data.isPrefixOf s

/-- Recognized audio extensions (`worker.py` line 267). -/
def hasAudioExt (nm : Str) : Bool :=
  let l := nm.map pyLower
  ".mp3".data.isSuffixOf l || ".ogg".data.isSuffixOf l || ".wav".data.isSuffixOf l
    || ".m4a".data.isSuffixOf l || ".opus".data.isSuffixOf l

/-- Create a local file (idempotent, set semantics). -/
def fsAdd (fs : List Str) (f : Str) : List Str := if f ∈ fs then fs else fs ++ [f]

/-- The guarded removal `if os.path.exists(f): os.remove(f)` (and
`shutil.rmtree` for directories). -/
def fsRemove (fs : List Str) (f : Str) : List Str :=
  fs.filter (fun g => decide (g ≠ f))

def tgDownloadErrMsg : Str := "Telegram download failed".data
def s3UploadErrMsg : Str := "Failed to upload file to S3".data
def badZipErrMsg : Str := "File is not a zip file".data
def notifyErrMsg : Str := "Failed to send message".data
def emptySkResultMsg : Str := "Empty result from SpeechKit".data

/-- Steps 1–2 of the audio path (`worker.py` lines 56–71): URL preparation.
Yields trace, scratch files, the bound `object_name` (bound at line 67,
before the upload, hence present even when the upload raises), and either
the file URL or the raised message. -/
def urlStage (t : PTaskIn) (env : WEnv) :
    List Effect × List Str × Option Str × Except Str Str :=
  if startsHttp t.sourcePath then
    ([], [], none, .ok t.sourcePath)
  else if env.tgDownloadOk = false then
    ([.tgDownload (tempFilename t)], [], none, .error tgDownloadErrMsg)
  else
    let fs1 := fsAdd [] (tempFilename t)
    let key := queueKey t
    if env.s3UploadOk = false then
      ([.tgDownload (tempFilename t), .s3Upload key], fs1, some key,
       .error s3UploadErrMsg)
    else
      ([.tgDownload (tempFilename t), .s3Upload key],
       fsRemove fs1 (tempFilename t), some key,
       .ok (durableUrl env.bucket key))

/-- Steps 3–4 (SpeechKit submit + wait, `worker.py` lines 77–81): raises on
API errors; an empty text raises `Empty result from SpeechKit`. -/
def speechStage (env : WEnv) (fileUrl : Str) : List Effect × Except Str Str :=
  match env.skSubmitRes with
  | none => ([.skSubmit fileUrl], .error env.skErrMsg)
  | some _ =>
    match env.skWaitRes with
    | none => ([.skSubmit fileUrl], .error env.skErrMsg)
    | some txt =>
      if txt.isEmpty then ([.skSubmit fileUrl], .error emptySkResultMsg)
      else ([.skSubmit fileUrl], .ok txt)

/-- Steps 6–7 (analysis + parse-and-normalize) on the stripped text. -/
def analysisRun (env : WEnv) (text : Str) : List Effect × Except Str AnalysisOut :=
  match analyzeText env with
  | .error e => ([.llmAnalyze text], .error e)
  | .ok (resp, parsed) => ([.llmAnalyze text], analysisStage text resp parsed)

/-- Step 8 (persist) and step 9 (report): the worker's `complete_task` call
passes `resident_phrase` / `accident_duration`, which the method does not
accept, so the call itself raises `TypeError` whenever it is reached; the
completed branch (with the transcript artifact of `send_report`, created
and removed in its `finally`) is kept for fidelity. -/
def persistStage (t : PTaskIn) (env : WEnv) (out : AnalysisOut) :
    List Effect × List Str × Option Str :=
  if workerCompleteCallOk then
    ([.dbComplete t.id out.summary out.sentiment out.finalTranscript],
     if env.targetChatSet then
       fsRemove (fsAdd [] (transcriptFilename t.id)) (transcriptFilename t.id)
     else [],
     none)
  else ([], [], some completeTypeErrMsg)

/-- The whole audio/subtask body of `process_task` (the `try` block):
trace, scratch files, bound `object_name`, and the escaped exception. -/
def audioRun (t : PTaskIn) (env : WEnv) :
    List Effect × List Str × Option Str × Option Str :=
  match urlStage t env with
  | (tr1, fs1, obj, .error e) => (tr1, fs1, obj, some e)
  | (tr1, fs1, obj, .ok fileUrl) =>
    match speechStage env fileUrl with
    | (tr2, .error e) => (tr1 ++ tr2, fs1, obj, some e)
    | (tr2, .ok rawText) =>
      let text := ivrStrip rawText
      match analysisRun env text with
      | (tr4, .error e) => (tr1 ++ tr2 ++ tr4, fs1, obj, some e)
      | (tr4, .ok out) =>
        match persistStage t env out with
        | (tr5, fs5, exn) => (tr1 ++ tr2 ++ tr4 ++ tr5, fs1 ++ fs5, obj, exn)

/-- The per-entry loop of `handle_archive` over the recognized entries:
stage to `archives/{parent}/{name}`, then `add_task` an `audio_subtask`
pointing at the durable URL.  `failAt` injects an upload failure at the
given index. -/
def archLoop (uid : Int) (pid : Nat) (bucket : Str) :
    List Str → Option Nat → List Effect × Option Str
  | [], _ => ([], none)
  | nm :: _, some 0 => ([.s3Upload (archKey pid nm)], some s3UploadErrMsg)
  | nm :: rest, failAt =>
      let k := archKey pid nm
      let tail := archLoop uid pid bucket rest (failAt.map (· - 1))
      (Effect.s3Upload k
         :: Effect.dbAdd uid "audio_subtask".data (durableUrl bucket k) nm
         :: tail.1,
       tail.2)

/-- Model of `BackgroundWorker.handle_archive`: download, extract, fan out,
complete the parent with a count summary, notify; the `finally` removes the
zip and the extraction directory on every path. -/
def handleArchive (t : PTaskIn) (env : WEnv) :
    List Effect × List Str × Option Str :=
  let dir := extractDirName t.id
  let zipF := tempFilename t
  let fs0 := fsAdd [] dir
  let core : List Effect × List Str × Option Str :=
    if env.archiveDownloadOk = false then ([], fs0, some tgDownloadErrMsg)
    else
      let fs1 := fsAdd fs0 zipF
      if env.zipOk = false then ([], fs1, some badZipErrMsg)
      else
        let matching := env.archiveEntries.filter hasAudioExt
        let lp := archLoop t.userId t.id env.bucket matching env.archiveUploadFailAt
        match lp.2 with
        | some e => (lp.1, fs1, some e)
        | none =>
          let tr := lp.1 ++
            [Effect.dbComplete t.id
              ("Распаковано файлов: ".data ++ natChars matching.length)
              "N/A".data "Archive processed".data]
          if env.archiveNotifyOk then (tr, fs1, none)
          else (tr, fs1, some notifyErrMsg)
  (core.1, fsRemove (fsRemove core.2.1 zipF) dir, core.2.2)

/-- Model of `BackgroundWorker.process_task`: dispatch on the zip type,
catch any escaped exception into `fail_task`, then run the `finally`
(scratch removal; S3 auto-clean of `object_name` when it was bound). -/
def processTask (t : PTaskIn) (env : WEnv) : List Effect × List Str :=
  if t.fileType = "application/zip".data then
    match handleArchive t env with
    | (tr, fs, exn) =>
      let tr2 := match exn with
        | some e => tr ++ [Effect.dbFail t.id e]
        | none => tr
      (tr2, fsRemove fs (tempFilename t))
  else
    match audioRun t env with
    | (tr, fs, obj, exn) =>
      let tr2 := match exn with
        | some e => tr ++ [Effect.dbFail t.id e]
        | none => tr
      let fs2 := fsRemove fs (tempFilename t)
      let tr3 := match obj with
        | some k => tr2 ++ [Effect.s3Delete k]
        | none => tr2
      (tr3, fs2)

/-! ## Task-store lemmas and claim theorems -/

theorem minIdRow_mem (t : TaskRow) (ts : List TaskRow) : minIdRow t ts ∈ t :: ts := by
  induction ts generalizing t with
  | nil => simp [minIdRow]
  | cons u us ih =>
    simp only [minIdRow]
    split
    · exact List.mem_cons_of_mem t (ih u)
    · rcases List.mem_cons.mp (ih t) with h | h
      · rw [h]; exact List.mem_cons_self _ _
      · exact List.mem_cons_of_mem _ (List.mem_cons_of_mem _ h)

theorem minIdRow_le (t : TaskRow) (ts : List TaskRow) :
    ∀ u ∈ t :: ts, (minIdRow t ts).id ≤ u.id := by
  induction ts generalizing t with
  | nil =>
    intro u hu
    rcases List.mem_cons.mp hu with h | h
    · subst h; simp [minIdRow]
    · simp at h
  | cons v vs ih =>
    intro u hu
    simp only [minIdRow]
    split
    · rename_i hlt
      rcases List.mem_cons.mp hu with h | h
      · subst h
        exact Nat.le_trans (ih v v (List.mem_cons_self _ _)) (Nat.le_of_lt hlt)
      · exact ih v u h
    · rename_i hge
      rcases List.mem_cons.mp hu with h | h
      · rw [h]; exact ih t t (List.mem_cons_self _ _)
      · rcases List.mem_cons.mp h with h2 | h2
        · subst h2
          exact Nat.le_trans (ih t t (List.mem_cons_self _ _)) (Nat.le_of_not_lt hge)
        · exact ih t u (List.mem_cons_of_mem _ h2)

theorem oldestQueued_spec (db : DB) (t : TaskRow) (h : oldestQueued db = some t) :
    t ∈ db.rows ∧ t.status = .queued ∧
      ∀ u ∈ db.rows, u.status = .queued → t.id ≤ u.id := by
  rcases hfl : db.rows.filter (fun r => r.status = .queued) with _ | ⟨a, as⟩
  · rw [oldestQueued, hfl] at h; simp [headMin] at h
  · rw [oldestQueued, hfl] at h
    simp only [headMin, Option.some.injEq] at h
    have hmem : t ∈ a :: as := h ▸ minIdRow_mem a as
    have hfmem : t ∈ db.rows.filter (fun r => r.status = .queued) := hfl ▸ hmem
    have hrt := List.mem_filter.mp hfmem
    refine ⟨hrt.1, by simpa using hrt.2, ?_⟩
    intro u hu hq
    have hufm : u ∈ db.rows.filter (fun r => r.status = .queued) :=
      List.mem_filter.mpr ⟨hu, by simpa using hq⟩
    exact h ▸ minIdRow_le a as u (hfl ▸ hufm)

theorem oldestQueued_none (db : DB)
    (h : db.rows.filter (fun r => r.status = .queued) = []) :
    oldestQueued db = none := by
  rw [oldestQueued, h]; rfl

/-- Claiming one row leaves no other queued row behind beyond those that
were already not the claimed id. -/
theorem filter_queued_setProcessing (rows : List TaskRow) (i : Nat) :
    (rows.map (setProcessing i)).filter (fun r => r.status = .queued)
      = (rows.filter (fun r => r.status = .queued)).filter (fun r => r.id ≠ i) := by
  induction rows with
  | nil => simp
  | cons r rs ih =>
    by_cases hid : r.id = i
    · by_cases hq : r.status = .queued <;>
        simp [setProcessing, hid, hq, ih, List.filter_cons]
    · by_cases hq : r.status = .queued <;>
        simp [setProcessing, hid, hq, ih, List.filter_cons]

/--
C4: `claimNext` (`get_pending_task`) returns `none` on a store with no
queued task (leaving it unchanged); otherwise it returns the queued task
with the smallest id — ids are assigned in creation order, so the oldest —
and the only rows it touches are those carrying that id, which move to
`processing`.
-/
theorem c4_claimNext_oldest (db : DB) :
    (db.rows.filter (fun r => r.status = .queued) = [] →
       getPendingTask db = (none, db)) ∧
    (∀ t, oldestQueued db = some t →
       t ∈ db.rows ∧ t.status = .queued ∧
       (∀ u ∈ db.rows, u.status = .queued → t.id ≤ u.id) ∧
       (getPendingTask db).1 = some t ∧
       (getPendingTask db).2.rows = db.rows.map (setProcessing t.id)) := by
  constructor
  · intro h
    have hn := oldestQueued_none db h
    simp [getPendingTask, hn]
  · intro t h
    have hs := oldestQueued_spec db t h
    exact ⟨hs.1, hs.2.1, hs.2.2, by simp [getPendingTask, h], by simp [getPendingTask, h]⟩

/-- Concrete two-task store: A enqueued first, B second. -/
def dbAB : DB :=
  (addTask
    (addTask { rows := [], nextId := 1 } 10 "audio".data "fidA".data "a.mp3".data 100).2
    10 "audio".data "fidB".data "b.mp3".data 101).2

def rowA : TaskRow := newRow 1 10 "audio".data "fidA".data "a.mp3".data 100

/-- Witness for C4: on the concrete store holding A (created first, id 1)
and B (created second, id 2), both queued, the first claim returns A. -/
theorem c4_claimNext_oldest_witness :
    (getPendingTask dbAB).1 = some rowA ∧ rowA.id = 1 ∧ rowA.createdAt = 100 :=
  ⟨((c4_claimNext_oldest dbAB).2 rowA rfl).2.2.2.1, rfl, rfl⟩

/-- A single queued row used by the interleaving counterexample. -/
def qrowX : TaskRow := newRow 1 5 "audio".data "fid".data "f.mp3".data 10

def dbX : DB := { rows := [qrowX], nextId := 2 }

/--
C2 counterexample: `get_pending_task` is a SELECT followed by a separate
UPDATE, so under the interleaving A-select, B-select, A-update, B-update
against a store holding exactly one queued task, *both* callers receive the
task — the claim that exactly one caller receives it and the other receives
empty is false of the code.
-/
theorem c2_counterexample_interleaved_double_claim :
    (runSched [true, false, true, false] (.start, .start, dbX)).1
        = ClaimPC.done (some qrowX) ∧
    (runSched [true, false, true, false] (.start, .start, dbX)).2.1
        = ClaimPC.done (some qrowX) ∧
    (runSched [true, false, true, false] (.start, .start, dbX)).1
        ≠ ClaimPC.done none ∧
    (runSched [true, false, true, false] (.start, .start, dbX)).2.1
        ≠ ClaimPC.done none := by
  refine ⟨rfl, rfl, ?_, ?_⟩
  · exact fun h => Option.noConfusion (ClaimPC.done.inj
      ((show (runSched [true, false, true, false] (.start, .start, dbX)).1
          = ClaimPC.done (some qrowX) from rfl).symm.trans h))
  · exact fun h => Option.noConfusion (ClaimPC.done.inj
      ((show (runSched [true, false, true, false] (.start, .start, dbX)).2.1
          = ClaimPC.done (some qrowX) from rfl).symm.trans h))

/--
C2 amended: the claim operation is a read followed by a separate write, not
a single conditional update; executed without interleaving (each call run
atomically to completion) it is still exclusive: on a store whose only
queued row is `t`, the first call claims and returns `t` and a second call
returns empty.
-/
theorem c2_claimNext_sequential_exclusive (db : DB) (t : TaskRow)
    (h : db.rows.filter (fun r => r.status = .queued) = [t]) :
    (getPendingTask db).1 = some t ∧
    (getPendingTask (getPendingTask db).2).1 = none := by
  have ho : oldestQueued db = some t := by
    rw [oldestQueued, h]; simp [headMin, minIdRow]
  have hrows : ((getPendingTask db).2).rows = db.rows.map (setProcessing t.id) := by
    simp [getPendingTask, ho]
  have h2 : ((getPendingTask db).2).rows.filter (fun r => r.status = .queued) = [] := by
    rw [hrows, filter_queued_setProcessing, h]
    simp
  have hn := oldestQueued_none _ h2
  have hsec : getPendingTask (getPendingTask db).2 = (none, (getPendingTask db).2) := by
    generalize (getPendingTask db).2 = d at hn
    simp [getPendingTask, hn]
  exact ⟨by simp [getPendingTask, ho], by rw [hsec]⟩

/-- Witness for the amended C2 statement at the concrete one-task store. -/
theorem c2_claimNext_sequential_exclusive_witness :
    (getPendingTask dbX).1 = some qrowX ∧
    (getPendingTask (getPendingTask dbX).2).1 = none :=
  c2_claimNext_sequential_exclusive dbX qrowX rfl

/-- A task already in the terminal `completed` state. -/
def rowDone : TaskRow :=
  { newRow 1 5 "audio".data "fid".data "f.mp3".data 10 with status := .completed }

def dbDone : DB := { rows := [rowDone], nextId := 2 }

/--
C3 counterexample: `fail_task` carries no status guard — invoked on a task
whose status is already `completed`, it overwrites the status with `error`
instead of being a no-op, so the claim that `complete`/`fail` never change
the status of a task outside `processing` is false of the code.
-/
theorem c3_counterexample_fail_overwrites_completed :
    rowDone.status = TStatus.completed ∧
    (failTask dbDone 1 "boom".data).rows.map TaskRow.status = [TStatus.error] :=
  ⟨rfl, rfl⟩

/--
C3 amended: `complete_task` and `fail_task` update unconditionally by id:
any row carrying the id moves to `completed` (resp. `error`) with the
result (resp. error-message) fields set, whatever its current status —
including `queued`, `completed` and `error` — and rows with other ids are
untouched.
-/
theorem c3_store_updates_unconditional (db : DB) (i : Nat) (msg : Str)
    (a : CompleteArgs) (t : TaskRow) (ht : t ∈ db.rows) :
    (t.id = i →
       failRowUpd i msg t ∈ (failTask db i msg).rows ∧
       (failRowUpd i msg t).status = .error ∧
       (failRowUpd i msg t).errorMessage = .str msg ∧
       completeRowUpd i a t ∈ (completeTask db i a).rows ∧
       (completeRowUpd i a t).status = .completed ∧
       (completeRowUpd i a t).resultSummary = a.summary) ∧
    (t.id ≠ i →
       t ∈ (failTask db i msg).rows ∧ t ∈ (completeTask db i a).rows) := by
  constructor
  · intro hid
    refine ⟨List.mem_map_of_mem _ ht, ?_, ?_, List.mem_map_of_mem _ ht, ?_, ?_⟩ <;>
      simp [failRowUpd, completeRowUpd, hid]
  · intro hid
    have h1 : failRowUpd i msg t = t := by simp [failRowUpd, hid]
    have h2 : completeRowUpd i a t = t := by simp [completeRowUpd, hid]
    exact ⟨h1 ▸ List.mem_map_of_mem _ ht, h2 ▸ List.mem_map_of_mem _ ht⟩

/-- Witness for the amended C3 statement: the concrete `completed` row is
rewritten to `error` by `fail_task`. -/
theorem c3_store_updates_unconditional_witness :
    failRowUpd 1 "boom".data rowDone ∈ (failTask dbDone 1 "boom".data).rows ∧
    (failRowUpd 1 "boom".data rowDone).status = TStatus.error :=
  ⟨((c3_store_updates_unconditional dbDone 1 "boom".data
      { summary := .null, sentiment := .null, fullText := .null }
      rowDone (List.mem_cons_self _ _)).1 rfl).1,
   ((c3_store_updates_unconditional dbDone 1 "boom".data
      { summary := .null, sentiment := .null, fullText := .null }
      rowDone (List.mem_cons_self _ _)).1 rfl).2.1⟩

/-! ## Fence-stripping lemmas (claim C9) -/

theorem afterChar_append (c : Char) (l₁ l₂ : Str) (h : c ∉ l₁) :
    afterChar c (l₁ ++ c :: l₂) = some l₂ := by
  induction l₁ with
  | nil => simp [afterChar]
  | cons x xs ih =>
    have hx : ¬ x = c := by
      intro he; exact h (he ▸ List.mem_cons_self _ _)
    simp only [List.cons_append, afterChar, if_neg hx]
    exact ih (fun hm => h (List.mem_cons_of_mem _ hm))

theorem isPrefixOf_append_self (p t : Str) : p.isPrefixOf (p ++ t) = true := by
  induction p with
  | nil => simp [List.isPrefixOf]
  | cons a as ih => simp [List.isPrefixOf, ih]

theorem pyLStrip_cons (c : Char) (s : Str) (h : pyIsSpace c = false) :
    pyLStrip (c :: s) = c :: s := by
  simp [pyLStrip, List.dropWhile_cons, h]

theorem pyRStrip_append (s : Str) (c : Char) (h : pyIsSpace c = false) :
    pyRStrip (s ++ [c]) = s ++ [c] := by
  simp [pyRStrip, List.dropWhile_cons, h]

theorem pyStrip_wrapped (y : Str) :
    pyStrip (bq :: y ++ [bq]) = bq :: y ++ [bq] := by
  have h1 : pyLStrip (bq :: (y ++ [bq])) = bq :: (y ++ [bq]) :=
    pyLStrip_cons _ _ (by decide)
  have h2 : pyRStrip ((bq :: y) ++ [bq]) = (bq :: y) ++ [bq] :=
    pyRStrip_append _ _ (by decide)
  calc pyStrip (bq :: (y ++ [bq]))
      = pyRStrip (bq :: (y ++ [bq])) := by rw [pyStrip, h1]
    _ = bq :: (y ++ [bq]) := by rw [← List.cons_append, h2, List.cons_append]

/-- An analysis response wrapped in markdown code fences, the shape the
spec's C9 scenario describes: a fence-plus-language first line, the JSON
body, a closing fence line. -/
def fencedWrap (j : Str) : Str := "```json\n".data ++ j ++ "\n```".data

theorem pyStrip_fencedWrap (j : Str) : pyStrip (fencedWrap j) = fencedWrap j := by
  have hsh : fencedWrap j
      = bq :: ("``json\n".data ++ j ++ ('\n' :: [bq, bq])) ++ [bq] := by
    have e1 : "```json\n".data = bq :: "``json\n".data := by decide
    have e2 : "\n```".data = ('\n' :: [bq, bq]) ++ [bq] := by decide
    rw [fencedWrap, e1, e2]; simp [List.append_assoc]
  rw [hsh]; exact pyStrip_wrapped _

theorem fence_isPrefixOf_fencedWrap (j : Str) :
    fence.isPrefixOf (fencedWrap j) = true := by
  have hsh : fencedWrap j = fence ++ ("json\n".data ++ j ++ "\n```".data) := by
    have e : "```json\n".data = fence ++ "json\n".data := by decide
    rw [fencedWrap, e]; simp [List.append_assoc]
  rw [hsh]; exact isPrefixOf_append_self _ _

theorem splitOnceTail_fencedWrap (j : Str) :
    splitOnceTail (fencedWrap j) = j ++ "\n```".data := by
  have hsh : fencedWrap j = "```json".data ++ '\n' :: (j ++ "\n```".data) := by
    have e : "```json\n".data = "```json".data ++ ['\n'] := by decide
    rw [fencedWrap, e]; simp [List.append_assoc]
  rw [splitOnceTail, hsh, afterChar_append _ _ _ (by decide)]
  rfl

theorem fence_isSuffixOf_tail (j : Str) :
    fence.isSuffixOf (j ++ "\n```".data) = true := by
  have hsh : (j ++ "\n```".data).reverse = fence ++ ('\n' :: j.reverse) := by
    have e : ("\n```".data).reverse = fence ++ ['\n'] := by decide
    simp [List.reverse_append, e, List.append_assoc]
  have ef : fence.reverse = fence := by decide
  rw [List.isSuffixOf, ef, hsh]
  exact isPrefixOf_append_self _ _

theorem rsplitOnceHead_tail (j : Str) :
    rsplitOnceHead (j ++ "\n```".data) = j := by
  have hsh : (j ++ "\n```".data).reverse = fence ++ '\n' :: j.reverse := by
    have e : ("\n```".data).reverse = fence ++ ['\n'] := by decide
    simp [List.reverse_append, e, List.append_assoc]
  rw [rsplitOnceHead, hsh, afterChar_append _ _ _ (by decide)]
  simp

theorem stripFences_fencedWrap (j : Str) : stripFences (fencedWrap j) = j := by
  have h0 := pyStrip_fencedWrap j
  have h1 := fence_isPrefixOf_fencedWrap j
  have h2 := splitOnceTail_fencedWrap j
  have h3 := fence_isSuffixOf_tail j
  have h4 := rsplitOnceHead_tail j
  simp only [stripFences]
  rw [h0, if_pos h1, h2, if_pos h3, h4]

theorem stripFences_id (j : Str) (hstrip : pyStrip j = j)
    (hpre : fence.isPrefixOf j = false) (hsuf : fence.isSuffixOf j = false) :
    stripFences j = j := by
  simp only [stripFences, hstrip, hpre, Bool.false_eq_true, if_false, hsuf]

/--
C9: for a well-formed (code-fence-free, whitespace-trimmed) JSON body `j`,
the parse-and-normalize step applied to the fence-wrapped response strips
exactly the fences — the string handed to `json.loads` is the same as for
the unwrapped response, so every extracted field coincides.
-/
theorem c9_fenced_parse_matches_unwrapped (j : Str)
    (hstrip : pyStrip j = j)
    (hpre : fence.isPrefixOf j = false)
    (hsuf : fence.isSuffixOf j = false) :
    stripFences (fencedWrap j) = stripFences j ∧
    stripFences j = j ∧
    ∀ (α : Type) (parse : Str → α),
      parse (stripFences (fencedWrap j)) = parse (stripFences j) := by
  have h1 := stripFences_fencedWrap j
  have h2 := stripFences_id j hstrip hpre hsuf
  exact ⟨h1.trans h2.symm, h2, fun α parse => by rw [h1, h2]⟩

/-- Witness for C9 at a concrete JSON object body. -/
theorem c9_fenced_parse_matches_unwrapped_witness :
    stripFences (fencedWrap "\x7b\"summary\": \"S\"\x7d".data)
      = stripFences "\x7b\"summary\": \"S\"\x7d".data ∧
    stripFences "\x7b\"summary\": \"S\"\x7d".data = "\x7b\"summary\": \"S\"\x7d".data :=
  ⟨(c9_fenced_parse_matches_unwrapped "\x7b\"summary\": \"S\"\x7d".data
      (by decide) (by decide) (by decide)).1,
   (c9_fenced_parse_matches_unwrapped "\x7b\"summary\": \"S\"\x7d".data
      (by decide) (by decide) (by decide)).2.1⟩

/-! ## Category-flag extraction (claim C5) -/

theorem jGetD_cons_ne (k0 k : Str) (v : Json) (rest : List (Str × Json))
    (d : Json) (h : ¬ k0 = k) :
    jGetD ((k0, v) :: rest) k d = jGetD rest k d := by
  simp [jGetD, jLookup, h]

theorem jGetD_cons_self (k0 : Str) (v : Json) (rest : List (Str × Json))
    (d : Json) : jGetD ((k0, v) :: rest) k0 d = v := by
  simp [jGetD, jLookup]

/-- The four category flags of a normalized record. -/
def flagTuple (o : AnalysisOut) : Json × Json × Json × Json :=
  (o.categoryRefusalWorks, o.categoryNoBrigade, o.categoryLongDuration, o.categoryRedirect)

/-- The parsed object of the C5 counterexample: explicitly irrelevant, yet
with a truthy `stats_categories.no_brigade`. -/
def c5fields : List (Str × Json) :=
  [("is_relevant_hard".data, .bool false),
   ("stats_categories".data, .obj [("no_brigade".data, .bool true)])]

/--
C5 counterexample: the worker copies the category flags straight out of
`stats_categories` without consulting `is_relevant_hard`, so a well-formed
response with `is_relevant_hard = false` and `stats_categories.no_brigade =
true` yields a truthy persisted `category_no_brigade` — the claim that all
four flags are false whenever `is_relevant_hard` is false fails on the code.
-/
theorem c5_counterexample_flag_not_false :
    (extractAnalysis "текст диалога жителя с оператором".data c5fields).toOption.map
        AnalysisOut.categoryNoBrigade = some (Json.bool true) ∧
    (extractAnalysis "текст диалога жителя с оператором".data c5fields).toOption.map
        AnalysisOut.isRelevantHard = some (Json.bool false) ∧
    Json.bool true ≠ Json.bool false := by
  refine ⟨rfl, rfl, fun h => Bool.noConfusion (Json.bool.inj h)⟩

/--
C5 amended: the four category flags extracted by parse-and-normalize are a
function of `stats_categories` alone and do not depend on the value of
`is_relevant_hard` — swapping that value for any other changes nothing in
the persisted flags (they are all false only when `stats_categories` omits
them or sets them false, which the LLM prompt requests but nothing
enforces).
-/
theorem c5_flags_ignore_relevance (text : Str) (df : List (Str × Json))
    (v v' : Json) :
    (extractAnalysis text (("is_relevant_hard".data, v) :: df)).map flagTuple
      = (extractAnalysis text (("is_relevant_hard".data, v') :: df)).map flagTuple := by
  have hsummary : ∀ w d, jGetD (("is_relevant_hard".data, w) :: df) "summary".data d
      = jGetD df "summary".data d := fun w d => jGetD_cons_ne _ _ _ _ _ (by decide)
  have hsent : ∀ w d, jGetD (("is_relevant_hard".data, w) :: df) "sentiment".data d
      = jGetD df "sentiment".data d := fun w d => jGetD_cons_ne _ _ _ _ _ (by decide)
  have haddr : ∀ w d, jGetD (("is_relevant_hard".data, w) :: df) "address".data d
      = jGetD df "address".data d := fun w d => jGetD_cons_ne _ _ _ _ _ (by decide)
  have hdt : ∀ w d, jGetD (("is_relevant_hard".data, w) :: df) "dialog_type".data d
      = jGetD df "dialog_type".data d := fun w d => jGetD_cons_ne _ _ _ _ _ (by decide)
  have hrp : ∀ w d, jGetD (("is_relevant_hard".data, w) :: df) "resident_phrase".data d
      = jGetD df "resident_phrase".data d := fun w d => jGetD_cons_ne _ _ _ _ _ (by decide)
  have had : ∀ w d, jGetD (("is_relevant_hard".data, w) :: df) "accident_duration".data d
      = jGetD df "accident_duration".data d := fun w d => jGetD_cons_ne _ _ _ _ _ (by decide)
  have hsc : ∀ w d, jGetD (("is_relevant_hard".data, w) :: df) "stats_categories".data d
      = jGetD df "stats_categories".data d := fun w d => jGetD_cons_ne _ _ _ _ _ (by decide)
  have hloc : ∀ w d, jGetD (("is_relevant_hard".data, w) :: df) "location".data d
      = jGetD df "location".data d := fun w d => jGetD_cons_ne _ _ _ _ _ (by decide)
  have hmk : ∀ w d, jGetD (("is_relevant_hard".data, w) :: df) "markers".data d
      = jGetD df "markers".data d := fun w d => jGetD_cons_ne _ _ _ _ _ (by decide)
  have hcd : ∀ w d, jGetD (("is_relevant_hard".data, w) :: df) "cleaned_dialogue".data d
      = jGetD df "cleaned_dialogue".data d := fun w d => jGetD_cons_ne _ _ _ _ _ (by decide)
  unfold extractAnalysis
  simp only [hsummary, hsent, haddr, hdt, hrp, had, hsc, hloc, hmk, hcd, jGetD_cons_self]
  rcases e1 : jGetAttr (jGetD df "stats_categories".data (.obj []))
      "refusal_deadline".data (.bool false) with e | c1
  · rfl
  rcases e2 : jGetAttr (jGetD df "stats_categories".data (.obj []))
      "no_brigade".data (.bool false) with e | c2
  · rfl
  rcases e3 : jGetAttr (jGetD df "stats_categories".data (.obj []))
      "long_duration".data (.bool false) with e | c3
  · rfl
  rcases e4 : jGetAttr (jGetD df "stats_categories".data (.obj []))
      "redirect_other_org".data (.bool false) with e | c4
  · rfl
  rcases e5 : jGetAttr (jGetD df "location".data (.obj []))
      "street".data (.str []) with e | street
  · rfl
  rcases e6 : jGetAttr (jGetD df "location".data (.obj []))
      "house".data (.str []) with e | house
  · rfl
  rcases e7 : markersField (jGetD df "markers".data (.arr [])) with e | ms
  · rfl
  rcases e8 : jLen (jGetD df "cleaned_dialogue".data (.str text)) with e | n
  · rfl
  rfl

/-! ## Worker-run scenarios (claims C1, C6) -/

def isCompleteEff : Effect → Bool
  | .dbComplete _ _ _ _ => true
  | _ => false

def isFailEff : Effect → Bool
  | .dbFail _ _ => true
  | _ => false

/-- A benign environment: every external call succeeds. -/
def baseEnv : WEnv :=
  { bucket := "bkt".data
    targetChatSet := false
    tgDownloadOk := true
    s3UploadOk := true
    skSubmitRes := some "op1".data
    skErrMsg := "SpeechKit API error: 500".data
    skWaitRes := some "вода пропала на улице ленина дом пять".data
    llmFolderSet := true
    llmCredsSet := true
    llmClientErr := none
    llmStatus := 200
    llmErrText := "Internal Server Error".data
    llmAlts := []
    llmRawRepr := []
    rawParse := none
    archiveDownloadOk := true
    zipOk := true
    archiveEntries := []
    archiveUploadFailAt := none
    archiveNotifyOk := true }

/-- A claimed `audio_subtask` whose source is already a durable URL. -/
def subTask7 : PTaskIn :=
  { id := 7
    userId := 5
    fileType := "audio_subtask".data
    sourcePath := "https://storage.yandexcloud.net/bkt/archives/3/a.mp3".data
    fileName := "a.mp3".data }

/-- Environment where the analysis model answers with plain non-JSON text
(`rawParse = none`: `json.loads` raises `JSONDecodeError` on it). -/
def c1env : WEnv :=
  { baseEnv with
    llmAlts := ["это не валидный JSON ответ".data]
    rawParse := none }

/--
C1: for a subtask whose analysis response is plain non-JSON text the worker
*computes* the degraded record (placeholder summary, stripped transcript,
false flags) but its `complete_task` call passes the keyword arguments
`resident_phrase` / `accident_duration`, which
`DatabaseService.complete_task` does not accept: the call raises
`TypeError`, the outer handler runs `fail_task`, and the run persists an
`error` record — `complete` is never invoked, contradicting the claim
(and the spec's stated intent, of which the call site is a faulty
implementation).
-/
theorem c1_malformed_response_run_fails_not_completes :
    (processTask subTask7 c1env).1
      = [Effect.skSubmit subTask7.sourcePath,
         Effect.llmAnalyze "вода пропала на улице ленина дом пять".data,
         Effect.dbFail 7 completeTypeErrMsg] ∧
    (processTask subTask7 c1env).1.filter isCompleteEff = [] ∧
    (processTask subTask7 c1env).1.filter isFailEff
      = [Effect.dbFail 7 completeTypeErrMsg] ∧
    workerCompleteCallOk = false ∧
    analysisStage "вода пропала на улице ленина дом пять".data
        "это не валидный JSON ответ".data none
      = .ok (degradedOut "вода пропала на улице ленина дом пять".data
          "это не валидный JSON ответ".data) := by
  exact ⟨rfl, rfl, rfl, rfl, rfl⟩

/-- Environment in which the analysis HTTP call answers 500. -/
def c6env : WEnv := { baseEnv with llmStatus := 500 }

/--
C6 counterexample: when the analysis capability fails (HTTP 500),
`analyze_text` swallows the failure and returns a fallback JSON payload, so
the run is *not* failed with the underlying error message: the only
`fail_task` call of the run carries the unrelated `complete_task` TypeError
message, which mentions neither the status nor the error text.
-/
theorem c6_counterexample_analysis_error_swallowed :
    (processTask subTask7 c6env).1.filter isFailEff
      = [Effect.dbFail 7 completeTypeErrMsg] ∧
    (processTask subTask7 c6env).1.filter isCompleteEff = [] ∧
    containsSub "500".data completeTypeErrMsg = false ∧
    containsSub "Internal".data completeTypeErrMsg = false ∧
    analyzeText c6env
      = .ok (llmFallbackHttpStr 500 "Internal Server Error".data,
             some (.obj (llmFallbackHttpObj 500 "Internal Server Error".data))) :=
  ⟨rfl, rfl, rfl, rfl, rfl⟩

/-- The record parse-and-normalize extracts from the HTTP-error fallback
payload of `analyze_text`. -/
def fallbackHttpOut (st : Nat) (er : Str) : AnalysisOut :=
  { summary := "Ошибка AI: ".data ++ natChars st
    sentiment := "ERROR".data
    address := "Ошибка".data
    dialogType := "Ошибка".data
    markersStr := "Нет маркеров".data
    finalTranscript := "Ошибка API: ".data ++ er
    isRelevantHard := .bool false
    categoryRefusalWorks := .bool false
    categoryNoBrigade := .bool false
    categoryLongDuration := .bool false
    categoryRedirect := .bool false
    cleanedStreet := .str []
    cleanedHouse := .str []
    residentPhrase := .str []
    accidentDuration := .str [] }

theorem extract_llmFallbackHttp (text : Str) (st : Nat) (er : Str) :
    extractAnalysis text (llmFallbackHttpObj st er)
      = .ok (fallbackHttpOut st er) := by
  have h12 : ("Ошибка API: ".data).length = 12 := rfl
  have hlen : ¬ (("Ошибка API: ".data ++ er).length < 10) := by
    rw [List.length_append, h12]; omega
  unfold extractAnalysis
  simp [llmFallbackHttpObj, jGetD, jLookup, jGetAttr, markersField, jLen, hlen,
        pyStr, sanitizeJoin, fallbackHttpOut]
  have hq : ¬ (List.length er + 1 + 1 + 1 + 1 + 1 + 1 + 1 + 1 + 1 + 1 + 1 + 1 < 10) := by
    omega
  rw [if_neg hq]

/--
C6 amended: failures reaching the transcription capability do fail the task
with the underlying message, but failures reaching the analysis capability
do not: `analyze_text` catches them and returns a fallback JSON payload,
the pipeline continues into parse-and-normalize with that payload, and the
eventual `fail_task` of the run carries only the unrelated `complete_task`
TypeError message.
-/
theorem c6_transcription_fails_analysis_degrades (t : PTaskIn) (env : WEnv)
    (hz : ¬ t.fileType = "application/zip".data)
    (hh : startsHttp t.sourcePath = true) :
    (env.skSubmitRes = none →
       (processTask t env).1
         = [Effect.skSubmit t.sourcePath, Effect.dbFail t.id env.skErrMsg]) ∧
    (∀ opId txt, env.skSubmitRes = some opId → env.skWaitRes = some txt →
       txt ≠ [] → env.llmFolderSet = true → env.llmCredsSet = true →
       env.llmClientErr = none → ¬ env.llmStatus = 200 →
       (processTask t env).1
         = [Effect.skSubmit t.sourcePath,
            Effect.llmAnalyze (ivrStrip txt),
            Effect.dbFail t.id completeTypeErrMsg]) := by
  have hcall : workerCompleteCallOk = false := rfl
  constructor
  · intro hsk
    simp [processTask, audioRun, urlStage, speechStage, hz, hh, hsk]
  · intro opId txt hsk hw htxt hf hc hce hst
    have htxt' : txt.isEmpty = false := by
      cases txt
      · exact absurd rfl htxt
      · rfl
    simp [processTask, audioRun, urlStage, speechStage, analysisRun, analyzeText,
          analysisStage, persistStage, hz, hh, hsk, hw, htxt', hf, hc, hce, hst,
          hcall, extract_llmFallbackHttp]

/-- Witness for the amended C6 statement: a transcription submit failure
fails the task with its own message, while an analysis HTTP 500 leads to
the degraded continuation. -/
theorem c6_transcription_fails_analysis_degrades_witness :
    (processTask subTask7 { baseEnv with skSubmitRes := none }).1
      = [Effect.skSubmit subTask7.sourcePath,
         Effect.dbFail 7 "SpeechKit API error: 500".data] ∧
    (processTask subTask7 c6env).1
      = [Effect.skSubmit subTask7.sourcePath,
         Effect.llmAnalyze (ivrStrip "вода пропала на улице ленина дом пять".data),
         Effect.dbFail 7 completeTypeErrMsg] :=
  ⟨(c6_transcription_fails_analysis_degrades subTask7
      { baseEnv with skSubmitRes := none } (by decide) (by decide)).1 rfl,
   (c6_transcription_fails_analysis_degrades subTask7 c6env
      (by decide) (by decide)).2 "op1".data
      "вода пропала на улице ленина дом пять".data rfl rfl (by decide)
      rfl rfl rfl (by decide)⟩

/-! ## Archive fan-out (claim C7) -/

def isAddEff : Effect → Bool
  | .dbAdd _ _ _ _ => true
  | _ => false

/-- With no injected upload failure the fan-out loop stages and enqueues
every recognized entry, in order. -/
theorem archLoop_none (uid : Int) (pid : Nat) (bucket : Str) (names : List Str) :
    archLoop uid pid bucket names none
      = (names.flatMap (fun nm =>
          [Effect.s3Upload (archKey pid nm),
           Effect.dbAdd uid "audio_subtask".data (durableUrl bucket (archKey pid nm)) nm]),
         none) := by
  induction names with
  | nil => rfl
  | cons nm rest ih => simp [archLoop, ih]

theorem filter_isAddEff_bind (uid : Int) (ft : Str) (g h : Str → Str)
    (names : List Str) (tail : List Effect) (htail : tail.filter isAddEff = []) :
    ((names.flatMap (fun nm => [Effect.s3Upload (g nm), Effect.dbAdd uid ft (h nm) nm]))
        ++ tail).filter isAddEff
      = names.map (fun nm => Effect.dbAdd uid ft (h nm) nm) := by
  induction names with
  | nil => simpa using htail
  | cons nm rest ih => simpa [isAddEff] using ih

/--
C7: processing an `archiveBundle` task whose bundle holds `n` entries with
a recognized audio extension (and any number without) stages each matching
entry under `archives/{parentId}/{entry}`, enqueues exactly one
`audio_subtask` per matching entry whose `source_path` is the durable URL
of that staged object, completes the parent with the count-only summary,
and produces no transcription or analysis effect (the parent never enters
the Stage Pipeline).
-/
theorem c7_archive_fanout (t : PTaskIn) (env : WEnv)
    (hz : t.fileType = "application/zip".data)
    (hdl : env.archiveDownloadOk = true) (hzip : env.zipOk = true)
    (hup : env.archiveUploadFailAt = none) (hnot : env.archiveNotifyOk = true) :
    (processTask t env).1
      = (env.archiveEntries.filter hasAudioExt).flatMap (fun nm =>
          [Effect.s3Upload (archKey t.id nm),
           Effect.dbAdd t.userId "audio_subtask".data
             (durableUrl env.bucket (archKey t.id nm)) nm])
        ++ [Effect.dbComplete t.id
             ("Распаковано файлов: ".data
               ++ natChars (env.archiveEntries.filter hasAudioExt).length)
             "N/A".data "Archive processed".data] ∧
    (processTask t env).1.filter isAddEff
      = (env.archiveEntries.filter hasAudioExt).map (fun nm =>
          Effect.dbAdd t.userId "audio_subtask".data
            (durableUrl env.bucket (archKey t.id nm)) nm) ∧
    ((processTask t env).1.filter isAddEff).length
      = (env.archiveEntries.filter hasAudioExt).length ∧
    (∀ u, Effect.skSubmit u ∉ (processTask t env).1) ∧
    (∀ x, Effect.llmAnalyze x ∉ (processTask t env).1) := by
  have hha : handleArchive t env
      = ((env.archiveEntries.filter hasAudioExt).flatMap (fun nm =>
            [Effect.s3Upload (archKey t.id nm),
             Effect.dbAdd t.userId "audio_subtask".data
               (durableUrl env.bucket (archKey t.id nm)) nm])
          ++ [Effect.dbComplete t.id
               ("Распаковано файлов: ".data
                 ++ natChars (env.archiveEntries.filter hasAudioExt).length)
               "N/A".data "Archive processed".data],
         fsRemove (fsRemove (fsAdd (fsAdd [] (extractDirName t.id)) (tempFilename t))
             (tempFilename t)) (extractDirName t.id),
         none) := by
    unfold handleArchive
    simp [hdl, hzip, hup, hnot, archLoop_none]
  have htr : (processTask t env).1
      = (env.archiveEntries.filter hasAudioExt).flatMap (fun nm =>
          [Effect.s3Upload (archKey t.id nm),
           Effect.dbAdd t.userId "audio_subtask".data
             (durableUrl env.bucket (archKey t.id nm)) nm])
        ++ [Effect.dbComplete t.id
             ("Распаковано файлов: ".data
               ++ natChars (env.archiveEntries.filter hasAudioExt).length)
             "N/A".data "Archive processed".data] := by
    simp [processTask, hz, hha]
  refine ⟨htr, ?_, ?_, ?_, ?_⟩
  · rw [htr]; exact filter_isAddEff_bind _ _ _ _ _ _ (by rfl)
  · rw [htr, filter_isAddEff_bind _ _ _ _ _ _ (by rfl), List.length_map]
  · intro u hmem
    rw [htr] at hmem
    rcases List.mem_append.mp hmem with hm | hm
    · rcases List.mem_flatMap.mp hm with ⟨nm, _, hin⟩
      simp at hin
    · simp at hm
  · intro x hmem
    rw [htr] at hmem
    rcases List.mem_append.mp hmem with hm | hm
    · rcases List.mem_flatMap.mp hm with ⟨nm, _, hin⟩
      simp at hin
    · simp at hm

/-- The archive task of the concrete witness scenario. -/
def archTask : PTaskIn :=
  { id := 3
    userId := 5
    fileType := "application/zip".data
    sourcePath := "fid".data
    fileName := "arch.zip".data }

/-- Bundle of 3 recognized and 2 unrecognized entries. -/
def archEnv5 : WEnv :=
  { baseEnv with
    archiveEntries := ["a.MP3".data, "b.ogg".data, "report.txt".data,
                       "d.opus".data, "readme".data] }

/-- Witness for C7: the 3-of-5 bundle produces exactly 3 subtasks and the
count-3 summary. -/
theorem c7_archive_fanout_witness :
    ((processTask archTask archEnv5).1.filter isAddEff).length = 3 ∧
    (∀ u, Effect.skSubmit u ∉ (processTask archTask archEnv5).1) :=
  ⟨by rw [(c7_archive_fanout archTask archEnv5 rfl rfl rfl rfl rfl).2.2.1]; rfl,
   (c7_archive_fanout archTask archEnv5 rfl rfl rfl rfl rfl).2.2.2.1⟩

/-! ## Scratch-file cleanup (claim C8) -/

theorem fsRemove_nil (f : Str) : fsRemove [] f = [] := rfl

/-- The audio path's scratch set is gone once the `finally` removes the
temp file: the URL stage either created nothing, or created and already
removed the temp download. -/
theorem urlStage_fs_removed (t : PTaskIn) (env : WEnv) :
    fsRemove (urlStage t env).2.1 (tempFilename t) = [] := by
  unfold urlStage
  cases hh : startsHttp t.sourcePath
  · cases htg : env.tgDownloadOk
    · simp [fsRemove]
    · cases hs3 : env.s3UploadOk <;>
        simp [fsAdd, fsRemove, List.filter_cons]
  · simp [fsRemove]

/-- The whole audio `try` body leaves exactly the URL stage's scratch set
(the dead completed-branch would have removed its transcript artifact in
its own `finally`). -/
theorem audioRun_fs (t : PTaskIn) (env : WEnv) :
    (audioRun t env).2.1 = (urlStage t env).2.1 := by
  have hcall : workerCompleteCallOk = false := rfl
  unfold audioRun
  rcases hus : urlStage t env with ⟨tr1, fs1, obj, r⟩
  rcases r with e | fileUrl
  · rfl
  · rcases hsp : speechStage env fileUrl with ⟨tr2, r2⟩
    rcases r2 with e | rawText
    · simp [hsp]
    · rcases han : analysisRun env (ivrStrip rawText) with ⟨tr4, r4⟩
      rcases r4 with e | out
      · simp [hsp, han]
      · simp [hsp, han, persistStage, hcall]

/-- The archive path's scratch set (extraction directory, downloaded zip)
is gone once its `finally` has run. -/
theorem handleArchive_fs_removed (t : PTaskIn) (env : WEnv) :
    fsRemove (handleArchive t env).2.1 (tempFilename t) = [] := by
  unfold handleArchive
  cases hdl : env.archiveDownloadOk
  · by_cases h : extractDirName t.id = tempFilename t <;>
      simp [fsAdd, fsRemove, List.filter_cons, h]
  · cases hzip : env.zipOk
    · by_cases h : tempFilename t = extractDirName t.id <;>
        simp [fsAdd, fsRemove, List.filter_cons, h]
    · rcases hlp : (archLoop t.userId t.id env.bucket
        (env.archiveEntries.filter hasAudioExt) env.archiveUploadFailAt).2 with _ | e
      · cases hnot : env.archiveNotifyOk <;>
          · by_cases h : tempFilename t = extractDirName t.id <;>
              simp [hlp, fsAdd, fsRemove, List.filter_cons, h]
      · by_cases h : tempFilename t = extractDirName t.id <;>
          simp [hlp, fsAdd, fsRemove, List.filter_cons, h]

/--
C8: whatever the task kind and whatever the outcome of every external step
(download, staging, extraction, per-entry upload, transcription, analysis,
persistence), the run of `process_task` ends with an empty local scratch
set: no temp download, extraction directory or transcript dump survives
the `finally` blocks.
-/
theorem c8_no_scratch_left (t : PTaskIn) (env : WEnv) :
    (processTask t env).2 = [] := by
  by_cases hz : t.fileType = "application/zip".data
  · rcases hha : handleArchive t env with ⟨tr, fs, exn⟩
    have := handleArchive_fs_removed t env
    rw [hha] at this
    simp [processTask, hz, hha, this]
  · rcases har : audioRun t env with ⟨tr, fs, obj, exn⟩
    have h1 := audioRun_fs t env
    rw [har] at h1
    have h2 := urlStage_fs_removed t env
    rw [← h1] at h2
    simp [processTask, hz, har, h2]

/-! ## Remote-object cleanup asymmetry (claim C10) -/

/-- Once the Telegram download succeeded, `object_name` is bound (line 67
precedes the upload), whatever happens afterwards. -/
theorem urlStage_obj (t : PTaskIn) (env : WEnv)
    (hh : startsHttp t.sourcePath = false) (htg : env.tgDownloadOk = true) :
    (urlStage t env).2.2.1 = some (queueKey t) := by
  unfold urlStage
  cases hs3 : env.s3UploadOk <;> simp [hh, htg, hs3]

/-- The audio body hands the bound `object_name` through unchanged. -/
theorem audioRun_obj (t : PTaskIn) (env : WEnv) :
    (audioRun t env).2.2.1 = (urlStage t env).2.2.1 := by
  have hcall : workerCompleteCallOk = false := rfl
  unfold audioRun
  rcases hus : urlStage t env with ⟨tr1, fs1, obj, r⟩
  rcases r with e | fileUrl
  · rfl
  · rcases hsp : speechStage env fileUrl with ⟨tr2, r2⟩
    rcases r2 with e | rawText
    · simp [hsp]
    · rcases han : analysisRun env (ivrStrip rawText) with ⟨tr4, r4⟩
      rcases r4 with e | out
      · simp [hsp, han]
      · simp [hsp, han, persistStage, hcall]

/-- On a durable-URL source the audio body binds no `object_name` and its
trace holds no S3 deletion. -/
theorem audioRun_http (t : PTaskIn) (env : WEnv)
    (hh : startsHttp t.sourcePath = true) :
    (audioRun t env).2.2.1 = none ∧
    ∀ k, Effect.s3Delete k ∉ (audioRun t env).1 := by
  have hcall : workerCompleteCallOk = false := rfl
  have hus : urlStage t env = ([], [], none, .ok t.sourcePath) := by
    unfold urlStage; simp [hh]
  unfold audioRun
  rw [hus]
  cases hsk : env.skSubmitRes with
  | none => simp [speechStage, hsk]
  | some op =>
    cases hw : env.skWaitRes with
    | none => simp [speechStage, hsk, hw]
    | some txt =>
      cases he : txt.isEmpty
      · cases hat : analyzeText env with
        | error e => simp [speechStage, analysisRun, hsk, hw, he, hat]
        | ok pr =>
          rcases pr with ⟨resp, parsed⟩
          cases hst : analysisStage (ivrStrip txt) resp parsed with
          | error e => simp [speechStage, analysisRun, hsk, hw, he, hat, hst]
          | ok out =>
            simp [speechStage, analysisRun, persistStage, hcall, hsk, hw, he, hat, hst]
      · simp [speechStage, hsk, hw, he]

/--
C10: remote cleanup is asymmetric across task kinds — for an audio task
whose source is an origin reference (not a durable URL) and whose download
succeeded, the run's `finally` deletes the self-staged object
`queue/{taskId}/{fileName}` whatever the later outcome (success or any
failure); for a subtask whose source is already a durable URL, the run
performs no S3 deletion at all, so the archive-staged object outlives the
subtask's processing.
-/
theorem c10_remote_cleanup_asymmetric (t : PTaskIn) (env : WEnv)
    (hz : ¬ t.fileType = "application/zip".data) :
    (startsHttp t.sourcePath = false → env.tgDownloadOk = true →
       Effect.s3Delete (queueKey t) ∈ (processTask t env).1) ∧
    (startsHttp t.sourcePath = true →
       ∀ k, Effect.s3Delete k ∉ (processTask t env).1) := by
  constructor
  · intro hh htg
    have hobj := audioRun_obj t env
    rw [urlStage_obj t env hh htg] at hobj
    rcases har : audioRun t env with ⟨tr, fs, obj, exn⟩
    rw [har] at hobj
    simp only at hobj
    cases exn <;> simp [processTask, hz, har, hobj]
  · intro hh k
    have h1 := audioRun_http t env hh
    rcases har : audioRun t env with ⟨tr, fs, obj, exn⟩
    rw [har] at h1
    simp only at h1
    cases exn <;> simp [processTask, hz, har, h1.1, h1.2 k]

/-- An origin-sourced audio task for the C10 witness. -/
def audioTask9 : PTaskIn :=
  { id := 9
    userId := 5
    fileType := "audio/mpeg".data
    sourcePath := "BQACAgIAAxkBAAIB".data
    fileName := "call.mp3".data }

/-- Witness for C10: the origin-sourced task's run deletes its queue
object even though transcription fails; the durable-URL subtask's run
deletes nothing. -/
theorem c10_remote_cleanup_asymmetric_witness :
    Effect.s3Delete (queueKey audioTask9)
      ∈ (processTask audioTask9 { baseEnv with skSubmitRes := none }).1 ∧
    (∀ k, Effect.s3Delete k ∉ (processTask subTask7 baseEnv).1) :=
  ⟨(c10_remote_cleanup_asymmetric audioTask9 { baseEnv with skSubmitRes := none }
      (by decide)).1 (by decide) rfl,
   fun k => (c10_remote_cleanup_asymmetric subTask7 baseEnv (by decide)).2 (by decide) k⟩
